import Mathlib

/-!
Verification of the performance-analytics engine (`Performance_Analysis.py`):
a shallow embedding over exact rationals of the `PerformanceAnalysis` class,
its return derivation, cumulative series, scalar metrics and summary assembly.

Modelling conventions:
* Python/pandas numbers are modelled as `ℚ`; a missing value (`NaN` produced
  by `replace(0, nan)` on a leading zero) is modelled as `none : Option ℚ`.
* Python exceptions are modelled as `Except String`: division of plain Python
  numbers raises `ZeroDivisionError` on a zero denominator, `pd.Series(values,
  index)` raises `ValueError` when the two lists have different lengths.
* Python float `**` and `sqrt` produce irrational reals in general, which `ℚ`
  cannot represent; the analyzer is therefore parameterised by an arithmetic
  oracle `RealOps` supplying those two values, and every theorem holds for an
  arbitrary oracle.  A negative base raised to a non-integral exponent yields a
  complex number in Python, which `get_performance_summary` cannot round
  (`round` raises `TypeError` on `complex`); the model surfaces that failure as
  an `Except.error` at the power site, the only place the claims observe it.
-/

/-- A trade record: an `action` field (`"buy"`/`"sell"`) and the optional
`profit` and `return_rate` fields.  `none` models the key being absent from
the record (a `NaN` cell after `pd.DataFrame` assembly). -/
structure Trade where
  action : String
  profit : Option ℚ
  return_rate : Option ℚ
deriving DecidableEq

/-- The account ledger consumed by `PerformanceAnalysis.__init__`:
index-aligned `dates` and `total_assets`, plus the trade history. -/
structure Account where
  dates : List ℤ
  total_assets : List ℚ
  trade_history : List Trade
deriving DecidableEq

/-- Oracle for the two real-valued operations (`**` on floats and
`np.sqrt`) whose results are irrational in general. -/
structure RealOps where
  rpow : ℚ → ℚ → ℚ
  sqrt : ℚ → ℚ

/-- The epsilon `1e-6` used by `clip(lower=1e-6)` in `calculate_returns`. -/
def eps : ℚ := 1 / 1000000

/-- Binary maximum on `ℚ`, written out by cases so that it evaluates by
kernel reduction (used for `clip` lower bounds and running maxima). -/
def qmax (a b : ℚ) : ℚ := if a ≤ b then b else a

/-- Binary minimum on `ℚ`, written out by cases so that it evaluates by
kernel reduction (used for `clip` upper bounds and running minima). -/
def qmin (a b : ℚ) : ℚ := if a ≤ b then a else b

/-- Models `clip(lower=-0.11, upper=0.11)` applied to a single return
(line 42 of `Performance_Analysis.py`). -/
def clamp (r : ℚ) : ℚ := qmin (qmax r (-(11 / 100))) (11 / 100)

/-- Models `total_assets_series.replace(0, np.nan).fillna(method='ffill')`
(line 31): every exact zero becomes `NaN` and is then forward-filled with the
most recent preceding non-`NaN` (i.e. nonzero) value, carried in `prev`;
a leading run of zeros stays `NaN` (`none`). -/
def replaceZeroFfill (prev : Option ℚ) : List ℚ → List (Option ℚ)
  | [] => []
  | x :: xs =>
      if x = 0 then prev :: replaceZeroFfill prev xs
      else some x :: replaceZeroFfill (some x) xs

/-- Models `clip(lower=1e-6)` (line 32): every non-`NaN` entry is raised to at least
`1e-6`; `NaN` entries are untouched (pandas `clip` ignores `NaN`). -/
def clipLowerOpt (l : List (Option ℚ)) : List (Option ℚ) :=
  l.map (Option.map (fun v => qmax v eps))

/-- The sanitisation pipeline of lines 31-32, applied when some asset is
non-positive: replace zeros by `NaN`, forward-fill, then floor at `1e-6`. -/
def sanitizeAssets (assets : List ℚ) : List (Option ℚ) :=
  clipLowerOpt (replaceZeroFfill none assets)

/-- One pass of `pct_change().fillna(0)` (line 36): each element is
`cur / prev - 1` when both the previous and current cells are non-`NaN`,
and `0` otherwise (the first element, and any element adjacent to a `NaN`,
is `NaN` in pandas and becomes `0` under `fillna(0)`). -/
def pctChangeAux (prev : Option ℚ) : List (Option ℚ) → List ℚ
  | [] => []
  | x :: xs =>
      (match prev, x with
       | some a, some b => b / a - 1
       | _, _ => 0) :: pctChangeAux x xs

/-- Models `pct_change().fillna(0)` over a whole (possibly `NaN`-bearing) series. -/
def pctChangeFill0 (l : List (Option ℚ)) : List ℚ := pctChangeAux none l

/-- Models `total_assets_series` as it stands after the fix-1 block (lines 22-32):
sanitised iff some asset is non-positive (line 28), untouched otherwise. -/
def assetSeries (acct : Account) : List (Option ℚ) :=
  if acct.total_assets.any (fun a => decide (a ≤ 0))
  then sanitizeAssets acct.total_assets
  else acct.total_assets.map some

/-- The value of `self.strategy_returns` after `calculate_returns`
(lines 16-46): day-over-day percentage change of the (possibly sanitised)
asset series with `fillna(0)`, each return clamped to `[-0.11, 0.11]`. -/
def strategy_returns (acct : Account) : List ℚ :=
  (pctChangeFill0 (assetSeries acct)).map clamp

/-- Message of the `ValueError` raised on line 19 when there is no asset
data ("没有可用的资产数据用于计算收益率"). -/
def noDataMsg : String := "没有可用的资产数据用于计算收益率"

/-- Message of the `ValueError` pandas raises when `pd.Series(values, index)`
receives lists of different lengths (line 22). -/
def lenMismatchMsg : String := "Length of values does not match length of index"

/-- Models `calculate_returns` (lines 16-46) as executed by the constructor:
raises when the asset series is empty (line 18) or when `pd.Series` is handed
index and values of different lengths (line 22); otherwise computes
`strategy_returns`. -/
def calculate_returns (acct : Account) : Except String (List ℚ) :=
  if acct.total_assets.length = 0 then Except.error noDataMsg
  else if acct.dates.length ≠ acct.total_assets.length then Except.error lenMismatchMsg
  else Except.ok ( strategy_returns acct)

/-- Models `(1 + self.strategy_returns).cumprod()` (line 78): the running product,
`cumprodAux acc (x :: xs) = (acc * x) :: ...`. -/
def cumprodAux (acc : ℚ) : List ℚ → List ℚ
  | [] => []
  | x :: xs => (acc * x) :: cumprodAux (acc * x) xs

/-- pandas `Series.cumprod()`: `cumprod [a, b, c] = [a, a*b, a*b*c]`. -/
def cumprod (l : List ℚ) : List ℚ := cumprodAux 1 l

/-- Models `self.cumulative_net_assets` as computed by the effective
`calculate_cumulative_returns` (line 78): `(1 + strategy_returns).cumprod()`. -/
def cumulative_net_assets (acct : Account) : List ℚ :=
  cumprod (( strategy_returns acct).map (fun r => 1 + r))

/-- Models `self.cumulative_returns` (line 80): `cumulative_net_assets - 1`. -/
def cumulative_returns (acct : Account) : List ℚ :=
  (cumulative_net_assets acct).map (fun v => v - 1)

/-- The numpy compounding step `(1 + returns).cumprod()`.  Exact rational
arithmetic cannot itself produce the numeric failure (e.g. float overflow)
that the first definition of `calculate_cumulative_returns` guards against,
so the possibility of that event is passed in as the oracle flag `raises`. -/
def numpyCumprod (raises : Bool) (l : List ℚ) : Except String (List ℚ) :=
  if raises then Except.error "numeric error in cumprod" else Except.ok (cumprod l)

/-- The FIRST definition of `calculate_cumulative_returns` (lines 48-70,
docstring "修复版本"): computes the cumulative series inside `try`, and on a
numeric error falls back to an all-`1.0` net-value / all-`0.0` return series
of the same length.  In Python this definition is silently shadowed by the
second definition of the same name further down the class body. -/
def calculate_cumulative_returns_shadowed (raises : Bool) (acct : Account) :
    List ℚ × List ℚ :=
  match numpyCumprod raises (( strategy_returns acct).map (fun r => 1 + r)) with
  | Except.ok nav => (nav, nav.map (fun v => v - 1))
  | Except.error _ =>
      (List.replicate ( strategy_returns acct).length 1,
       List.replicate ( strategy_returns acct).length 0)

/-- The SECOND, overriding definition of `calculate_cumulative_returns`
(lines 72-81), the one Python actually runs: the same compounding with NO
`try`/`except`, so a numeric error in `cumprod` propagates to the caller. -/
def calculate_cumulative_returns (raises : Bool) (acct : Account) :
    Except String (List ℚ × List ℚ) :=
  (numpyCumprod raises (( strategy_returns acct).map (fun r => 1 + r))).map
    (fun nav => (nav, nav.map (fun v => v - 1)))

/-- Models `get_total_return` (lines 83-89): `0.0` for fewer than two observations,
otherwise `(final / initial - 1) * 100` where `initial = total_assets[0]` and
`final = total_assets[-1]` are the RAW ledger values; Python division raises
`ZeroDivisionError` when `initial == 0`. -/
def get_total_return (acct : Account) : Except String ℚ :=
  if acct.total_assets.length < 2 then Except.ok 0
  else
    let initial := acct.total_assets.getD 0 0
    let final := acct.total_assets.getLast?.getD 0
    if initial = 0 then Except.error "division by zero"
    else Except.ok ((final / initial - 1) * 100)

/-- Models `get_annualized_return` (lines 91-105): `0.0` for fewer than two dates,
else `((1 + total_return/100) ** (252 / trading_days) - 1) * 100` with
`trading_days = len(dates)`.  When the base is negative and the exponent
`252 / trading_days` is not integral, Python `**` yields a `complex` number;
`get_performance_summary` then fails on `round(complex)` with a `TypeError`.
The model surfaces that failure here, at the only site the claims observe. -/
def get_annualized_return (ops : RealOps) (acct : Account) : Except String ℚ :=
  if acct.dates.length < 2 then Except.ok 0
  else
    match get_total_return acct with
    | Except.error e => Except.error e
    | Except.ok tr100 =>
      let tr := tr100 / 100
      let td := acct.dates.length
      if td ≤ 1 then Except.ok 0
      else if 1 + tr < 0 ∧ 252 % td ≠ 0 then Except.error "complex result"
      else Except.ok ((ops.rpow (1 + tr) (252 / (td : ℚ)) - 1) * 100)

/-- pandas `Series.std()` under the hood: the sample variance with `ddof=1`
(`0` for fewer than two points; those callers guard the length anyway). -/
def sampleVar (l : List ℚ) : ℚ :=
  if l.length ≤ 1 then 0
  else
    let n : ℚ := l.length
    let mean := l.sum / n
    (l.map (fun x => (x - mean) * (x - mean))).sum / (n - 1)

/-- Models `self.strategy_returns.std()`: the square root of the sample variance,
taken through the arithmetic oracle. -/
def seriesStd (ops : RealOps) (l : List ℚ) : ℚ := ops.sqrt (sampleVar l)

/-- Models `get_volatility` (lines 129-137): `std * sqrt(252) * 100`, `0.0` for
fewer than two returns. -/
def get_volatility (ops : RealOps) (acct : Account) : ℚ :=
  if ( strategy_returns acct).length < 2 then 0
  else seriesStd ops ( strategy_returns acct) * ops.sqrt 252 * 100

/-- The default `risk_free_rate=0.02` of `get_sharpe_ratio`. -/
def risk_free_rate : ℚ := 1 / 50

/-- Models `get_sharpe_ratio` (lines 107-126) at the default risk-free rate:
`0.0` for fewer than two returns or zero annualised volatility, else
`(annualized_return/100 - risk_free_rate) / (std * sqrt(252))`. -/
def get_sharpe_ratio (ops : RealOps) (acct : Account) : Except String ℚ :=
  if ( strategy_returns acct).length < 2 then Except.ok 0
  else
    match get_annualized_return ops acct with
    | Except.error e => Except.error e
    | Except.ok ar =>
      let annual := ar / 100
      let vol := seriesStd ops ( strategy_returns acct) * ops.sqrt 252
      if vol = 0 then Except.ok 0
      else Except.ok ((annual - risk_free_rate) / vol)

/-- Fold computing the spec's maximum drawdown: carries the running maximum
of the net-value prefix and the minimum drawdown seen so far. -/
def ddAux (runmax curmin : ℚ) : List ℚ → ℚ
  | [] => curmin
  | x :: xs => ddAux (qmax runmax x) (qmin curmin (x / qmax runmax x - 1)) xs

/-- Modelled from the spec: `get_max_drawdown` is called by
`get_calmar_ratio` (line 142) but is defined nowhere in the given source;
per the spec, it is the maximum peak-to-trough decline of
`cumulative_net_value`, i.e. `min over i of (value[i] / running_max(value[0..i]) - 1)`. -/
def get_max_drawdown (acct : Account) : ℚ :=
  match cumulative_net_assets acct with
  | [] => 0
  | x :: xs => ddAux x (x / x - 1) xs

/-- Models `get_calmar_ratio` (lines 139-146): `abs(annualized) / abs(max_drawdown)`,
`0.0` when the absolute max drawdown is `0`. -/
def get_calmar_ratio (ops : RealOps) (acct : Account) : Except String ℚ :=
  match get_annualized_return ops acct with
  | Except.error e => Except.error e
  | Except.ok ar =>
    let max_dd := |get_max_drawdown acct|
    if max_dd = 0 then Except.ok 0
    else Except.ok (|ar| / max_dd)

/-- Models `get_trade_count` (lines 148-150). -/
def get_trade_count (acct : Account) : ℕ := acct.trade_history.length

/-- Models `get_buy_sell_count` (lines 152-159): `(0, 0)` for an empty history,
else the counts of records with `action == 'buy'` / `'sell'`. -/
def get_buy_sell_count (acct : Account) : ℕ × ℕ :=
  if acct.trade_history = [] then (0, 0)
  else ((acct.trade_history.filter (fun t => t.action == "buy")).length,
        (acct.trade_history.filter (fun t => t.action == "sell")).length)

/-- The `sell_trades` selection of `get_win_rate` (line 167). -/
def sellTrades (acct : Account) : List Trade :=
  acct.trade_history.filter (fun t => t.action == "sell")

/-- Models `get_win_rate` (lines 161-176): `0.0` for an empty history, no sell
trades, or no `profit` column (pandas: the column exists iff SOME record of
the whole history carries the key); otherwise
`100 * (#sell trades with positive profit) / (#sell trades)` — a sell trade
whose `profit` cell is missing (`NaN`) never counts as winning. -/
def get_win_rate (acct : Account) : ℚ :=
  if acct.trade_history = [] then 0
  else if sellTrades acct = [] then 0
  else if acct.trade_history.any (fun t => t.profit.isSome) then
    (((sellTrades acct).filter
        (fun t => match t.profit with
                  | some p => decide (0 < p)
                  | none => false)).length : ℚ)
      / ((sellTrades acct).length : ℚ) * 100
  else 0

/-- Models `get_avg_trade_return` (lines 178-187): `0.0` for an empty history or
no `return_rate` column, else `mean(return_rate) * 100` where pandas `mean`
skips missing cells. -/
def get_avg_trade_return (acct : Account) : ℚ :=
  if acct.trade_history = [] then 0
  else if acct.trade_history.any (fun t => t.return_rate.isSome) then
    ((acct.trade_history.filterMap (fun t => t.return_rate)).sum
      / ((acct.trade_history.filterMap (fun t => t.return_rate)).length : ℚ)) * 100
  else 0

/-- Models `validate_data` (lines 189-205): the advisory list of data-quality
issue strings, in source order. -/
def validate_data (acct : Account) : List String :=
  (if acct.total_assets.length = 0 then ["没有资产数据"] else []) ++
  (if acct.total_assets.any (fun a => decide (a ≤ 0)) then ["存在非正资产值"] else []) ++
  (if acct.dates.length ≠ acct.total_assets.length then ["日期和资产数据长度不匹配"] else [])

/-- Python `round(x)` to an integer: round-half-to-even. -/
def roundHalfEven (x : ℚ) : ℤ :=
  if x - Int.floor x < 1 / 2 then Int.floor x
  else if x - Int.floor x > 1 / 2 then Int.floor x + 1
  else if Int.floor x % 2 = 0 then Int.floor x
  else Int.floor x + 1

/-- Python `round(x, d)` on an exact rational. -/
def roundTo (d : ℕ) (x : ℚ) : ℚ := (roundHalfEven (x * 10 ^ d) : ℚ) / 10 ^ d

/-- Extracts the value of a successful metric computation (`0` on error);
used only to STATE what `get_performance_summary` assembles. -/
def okD (e : Except String ℚ) : ℚ :=
  match e with
  | Except.ok v => v
  | Except.error _ => 0

/-- Models `get_performance_summary` (lines 207-244) on a constructed analyzer:
runs `validate_data` (warnings only), computes every metric in source order —
the first metric that raises propagates its exception — and returns the
ordered label → rounded-value mapping of lines 231-242. -/
def get_performance_summary (ops : RealOps) (acct : Account) :
    Except String (List (String × ℚ)) :=
  let _issues := validate_data acct
  match get_total_return acct with
  | Except.error e => Except.error e
  | Except.ok total_return =>
    match get_annualized_return ops acct with
    | Except.error e => Except.error e
    | Except.ok annual_return =>
      match get_sharpe_ratio ops acct with
      | Except.error e => Except.error e
      | Except.ok sharpe =>
        match get_calmar_ratio ops acct with
        | Except.error e => Except.error e
        | Except.ok calmar =>
          Except.ok
            [("总收益率 (%)", roundTo 2 total_return),
             ("年化收益率 (%)", roundTo 2 annual_return),
             ("夏普比率", roundTo 3 sharpe),
             ("年化波动率 (%)", roundTo 2 (get_volatility ops acct)),
             ("Calmar比率", roundTo 3 calmar),
             ("总交易次数", (get_trade_count acct : ℚ)),
             ("买入次数", ((get_buy_sell_count acct).1 : ℚ)),
             ("卖出次数", ((get_buy_sell_count acct).2 : ℚ)),
             ("胜率 (%)", roundTo 2 (get_win_rate acct)),
             ("平均交易收益率 (%)", roundTo 2 (get_avg_trade_return acct))]

/-- CLAIM-SIDE definition for C3, following the claim's words rather than
the source: every non-positive value is replaced by the most recent
preceding POSITIVE value (carried in `prev`), or by `1e-6` when no prior
positive value exists. -/
def sanitizeSpecC3 (prev : Option ℚ) : List ℚ → List ℚ
  | [] => []
  | x :: xs =>
      if x ≤ 0 then prev.getD eps :: sanitizeSpecC3 prev xs
      else x :: sanitizeSpecC3 (some x) xs

/-- The most recent nonzero value of a list (`none` when all entries are
zero); the value a zero cell is forward-filled from. -/
def lastNonzero : List ℚ → Option ℚ
  | [] => none
  | x :: xs =>
      match lastNonzero xs with
      | some v => some v
      | none => if x = 0 then none else some x

/-- CLAIM-SIDE definition for C2, following the claim's words: the list of
per-index drawdowns `value[i] / running_max(value[0..i]) - 1`. -/
def specCandidates (v : List ℚ) : List ℚ :=
  (List.range v.length).map
    (fun i => v.getD i 0 / ((v.take (i + 1)).foldl qmax (v.headD 0)) - 1)

/-- CLAIM-SIDE maximum drawdown for C2: `min over i` of the per-index
drawdown candidates (`0` for an empty series). -/
def specMaxDrawdown (v : List ℚ) : ℚ :=
  match specCandidates v with
  | [] => 0
  | c :: cs => cs.foldl qmin c

/-- Intermediate form connecting `ddAux` with `specCandidates`: the drawdown
candidates with the running maximum seeded at `m`. -/
def ddCand (m : ℚ) : List ℚ → List ℚ
  | [] => []
  | x :: xs => (x / qmax m x - 1) :: ddCand (qmax m x) xs

/-! ## Helper lemmas -/

lemma qmax_self (a : ℚ) : qmax a a = a := by simp [qmax]

lemma clamp_zero : clamp 0 = 0 := by norm_num [clamp, qmin, qmax]

lemma clamp_bounds (r : ℚ) : -(11 / 100) ≤ clamp r ∧ clamp r ≤ 11 / 100 := by
  unfold clamp qmin qmax
  split_ifs <;> constructor <;> linarith

lemma length_replaceZeroFfill (l : List ℚ) :
    ∀ prev, (replaceZeroFfill prev l).length = l.length := by
  induction l with
  | nil => intro prev; rfl
  | cons x xs ih =>
    intro prev
    by_cases hx : x = 0 <;> simp [replaceZeroFfill, hx, ih]

lemma length_sanitizeAssets (assets : List ℚ) :
    (sanitizeAssets assets).length = assets.length := by
  simp [sanitizeAssets, clipLowerOpt, length_replaceZeroFfill]

lemma length_assetSeries (acct : Account) :
    (assetSeries acct).length = acct.total_assets.length := by
  unfold assetSeries
  split_ifs <;> simp [length_sanitizeAssets]

lemma length_pctChangeAux (l : List (Option ℚ)) :
    ∀ prev, (pctChangeAux prev l).length = l.length := by
  induction l with
  | nil => intro prev; rfl
  | cons x xs ih => intro prev; simp [pctChangeAux, ih]

lemma length_strategy_returns (acct : Account) :
    ( strategy_returns acct).length = acct.total_assets.length := by
  simp [strategy_returns, pctChangeFill0, length_pctChangeAux, length_assetSeries]

lemma pctChangeAux_none_cons (x : Option ℚ) (xs : List (Option ℚ)) :
    pctChangeAux none (x :: xs) = 0 :: pctChangeAux x xs := by
  cases x <;> rfl

lemma length_cumprodAux (l : List ℚ) :
    ∀ acc, (cumprodAux acc l).length = l.length := by
  induction l with
  | nil => intro acc; rfl
  | cons x xs ih => intro acc; simp [cumprodAux, ih]

lemma cumprodAux_getD (l : List ℚ) :
    ∀ acc i, i < l.length →
      (cumprodAux acc l).getD i 0 = acc * (l.take (i + 1)).prod := by
  induction l with
  | nil => intro acc i h; simp at h
  | cons x xs ih =>
    intro acc i h
    cases i with
    | zero => simp [cumprodAux]
    | succ n =>
      have hn : n < xs.length := by simpa using h
      simp only [cumprodAux, List.getD_cons_succ, List.take_succ_cons, List.prod_cons]
      rw [ih (acc * x) n hn]
      ring

lemma getD_map_rat (f : ℚ → ℚ) (l : List ℚ) :
    ∀ i, i < l.length → (l.map f).getD i 0 = f (l.getD i 0) := by
  induction l with
  | nil => intro i h; simp at h
  | cons x xs ih =>
    intro i h
    cases i with
    | zero => rfl
    | succ n => simpa using ih n (by simpa using h)

/-! ## Claim theorems -/

/-- Claim C9: `get_total_return` yields `(final / initial - 1) * 100` with at
least two observations (and a nonzero initial value, without which Python
raises instead — see C10), and `0.0` with fewer than two. -/
theorem claim_C9 (acct : Account) :
    (acct.total_assets.length < 2 → get_total_return acct = Except.ok 0) ∧
    (2 ≤ acct.total_assets.length → acct.total_assets.getD 0 0 ≠ 0 →
      get_total_return acct =
        Except.ok ((acct.total_assets.getLast?.getD 0 / acct.total_assets.getD 0 0 - 1) * 100)) := by
  constructor
  · intro h
    simp [get_total_return, h]
  · intro h2 h0
    have hlt : ¬ acct.total_assets.length < 2 := by omega
    simp only [List.getD, List.get?_eq_getElem?] at h0
    simp [get_total_return, hlt, h0, List.getD]

/-- Claim C9, witness: for assets `[100, 110, 121]` the total return is
exactly `21` (%). -/
theorem claim_C9_witness :
    get_total_return ⟨[0, 1, 2], [100, 110, 121], []⟩ = Except.ok 21 :=
  ((claim_C9 ⟨[0, 1, 2], [100, 110, 121], []⟩).2 (by norm_num) (by norm_num)).trans
    (by norm_num [List.getLast?])

/-- Claim C10: with at least two observations and a zero first asset value,
`get_total_return` divides by the raw (unsanitised) initial value and raises
`ZeroDivisionError` instead of returning a value. -/
theorem claim_C10 (acct : Account) (h2 : 2 ≤ acct.total_assets.length)
    (h0 : acct.total_assets.getD 0 0 = 0) :
    get_total_return acct = Except.error "division by zero" := by
  have hlt : ¬ acct.total_assets.length < 2 := by omega
  simp only [List.getD, List.get?_eq_getElem?] at h0
  simp [get_total_return, hlt, h0]

/-- Claim C10, witness: the ledger with assets `[0, 121]`. -/
theorem claim_C10_witness :
    get_total_return ⟨[0, 1], [0, 121], []⟩ = Except.error "division by zero" :=
  claim_C10 ⟨[0, 1], [0, 121], []⟩ (by norm_num) (by norm_num)

/-- Claim C5: for every non-empty ledger the derived return series starts
with `0`, and every element (in particular every `returns[i]` with `i > 0`)
lies in the closed interval `[-0.11, 0.11]`. -/
theorem claim_C5 (acct : Account) (h : acct.total_assets ≠ []) :
    ( strategy_returns acct).head? = some 0 ∧
    ∀ x ∈ strategy_returns acct, -(11 / 100) ≤ x ∧ x ≤ 11 / 100 := by
  constructor
  · have hne : assetSeries acct ≠ [] := by
      have := length_assetSeries acct
      intro hnil
      rw [hnil] at this
      exact h (List.eq_nil_of_length_eq_zero this.symm)
    obtain ⟨y, ys, hy⟩ := List.exists_cons_of_ne_nil hne
    rw [strategy_returns, pctChangeFill0, hy, pctChangeAux_none_cons]
    simp [clamp_zero]
  · intro x hx
    obtain ⟨y, _, rfl⟩ := List.mem_map.mp hx
    exact clamp_bounds y

/-- Claim C5, witness: the ledger with assets `[100, 110, 121]`. -/
theorem claim_C5_witness :
    ( strategy_returns ⟨[0, 1, 2], [100, 110, 121], []⟩).head? = some 0 ∧
    ∀ x ∈ strategy_returns ⟨[0, 1, 2], [100, 110, 121], []⟩,
      -(11 / 100) ≤ x ∧ x ≤ 11 / 100 :=
  claim_C5 ⟨[0, 1, 2], [100, 110, 121], []⟩ (by simp)

lemma winPred_eq (t : Trade) :
    (match t.profit with | some p => decide (0 < p) | none => false)
      = decide (0 < t.profit.getD 0) := by
  cases t.profit <;> simp

/-- Claim C4 (amended): `calculate_returns` raises the "no asset data" error
iff the asset series is empty, and completes for every non-empty ledger whose
`dates` and `total_assets` have EQUAL length; for a non-empty ledger with
mismatched lengths the `pd.Series(values, index)` construction raises a
length-mismatch `ValueError` instead of completing. -/
theorem claim_C4_amended (acct : Account) :
    (calculate_returns acct = Except.error noDataMsg ↔ acct.total_assets = []) ∧
    (acct.total_assets ≠ [] → acct.dates.length = acct.total_assets.length →
      calculate_returns acct = Except.ok ( strategy_returns acct)) ∧
    (acct.total_assets ≠ [] → acct.dates.length ≠ acct.total_assets.length →
      calculate_returns acct = Except.error lenMismatchMsg) := by
  refine ⟨?_, ?_, ?_⟩
  · by_cases h0 : acct.total_assets.length = 0
    · simp [calculate_returns, h0, List.length_eq_zero.mp h0]
    · have hne : acct.total_assets ≠ [] := by
        intro e
        exact h0 (by simp [e])
      by_cases hd : acct.dates.length ≠ acct.total_assets.length
      · simp [calculate_returns, h0, hd, hne, noDataMsg, lenMismatchMsg]
      · simp [calculate_returns, h0, hd, hne]
  · intro hne hlen
    have h0 : ¬ acct.total_assets.length = 0 := by
      simpa [List.length_eq_zero] using hne
    simp [calculate_returns, h0, hlen]
  · intro hne hd
    have h0 : ¬ acct.total_assets.length = 0 := by
      simpa [List.length_eq_zero] using hne
    simp [calculate_returns, h0, hd]

/-- Claim C4, counterexample: the ledger with one asset value but an empty
date index (N = 1 ≥ 1) does NOT complete: `pd.Series` raises the
length-mismatch error, refuting "for every ledger with N >= 1 it completes
without raising". -/
theorem claim_C4_counterexample :
    (⟨[], [100], []⟩ : Account).total_assets.length = 1 ∧
    calculate_returns ⟨[], [100], []⟩ = Except.error lenMismatchMsg := by
  constructor
  · rfl
  · norm_num [calculate_returns]

/-- Claim C4, witness: a one-day, length-consistent ledger completes. -/
theorem claim_C4_witness :
    calculate_returns ⟨[7], [100], []⟩ =
      Except.ok ( strategy_returns ⟨[7], [100], []⟩) :=
  (claim_C4_amended ⟨[7], [100], []⟩).2.1 (by simp) (by simp)

/-- Claim C8: `get_win_rate` is `0` when there are no sell trades or when no
record of the history carries a `profit` field, and otherwise it is the
fraction, as a percent, of sell trades whose profit is present and positive
over all sell trades. -/
theorem claim_C8 (acct : Account) :
    ((sellTrades acct = [] ∨ ∀ t ∈ acct.trade_history, t.profit = none) →
      get_win_rate acct = 0) ∧
    (sellTrades acct ≠ [] → (∃ t ∈ acct.trade_history, t.profit ≠ none) →
      get_win_rate acct =
        ((sellTrades acct).countP (fun t => decide (0 < t.profit.getD 0)) : ℚ)
          / ((sellTrades acct).length : ℚ) * 100) := by
  constructor
  · intro h
    rcases h with hsell | hnone
    · by_cases hh : acct.trade_history = []
      · simp [get_win_rate, hh]
      · simp [get_win_rate, hh, hsell]
    · have hany : acct.trade_history.any (fun t => t.profit.isSome) = false := by
        simp only [List.any_eq_false]
        intro t ht
        simp [hnone t ht]
      by_cases hh : acct.trade_history = []
      · simp [get_win_rate, hh]
      · by_cases hs : sellTrades acct = []
        · simp [get_win_rate, hh, hs]
        · simp [get_win_rate, hh, hs, hany]
  · intro hs hex
    have hh : acct.trade_history ≠ [] := by
      intro e
      exact hs (by simp [sellTrades, e])
    have hany : acct.trade_history.any (fun t => t.profit.isSome) = true := by
      obtain ⟨t, ht, hp⟩ := hex
      exact List.any_eq_true.mpr ⟨t, ht, by simpa [Option.isSome_iff_ne_none] using hp⟩
    rw [get_win_rate, if_neg hh, if_neg hs, if_pos hany]
    have hpred : ((sellTrades acct).filter
        (fun t => match t.profit with | some p => decide (0 < p) | none => false))
        = (sellTrades acct).filter (fun t => decide (0 < t.profit.getD 0)) := by
      apply List.filter_congr
      intro t _
      exact winPred_eq t
    rw [hpred, List.countP_eq_length_filter]

/-- Claim C8, witness: the history `[{sell, +10}, {sell, -5}]` has win rate
exactly `50` (%). -/
theorem claim_C8_witness :
    get_win_rate ⟨[], [], [⟨"sell", some 10, none⟩, ⟨"sell", some (-5), none⟩]⟩ = 50 := by
  have h1 : sellTrades ⟨[], [], [⟨"sell", some 10, none⟩, ⟨"sell", some (-5), none⟩]⟩
      = [⟨"sell", some 10, none⟩, ⟨"sell", some (-5), none⟩] := rfl
  rw [(claim_C8 ⟨[], [], [⟨"sell", some 10, none⟩, ⟨"sell", some (-5), none⟩]⟩).2
      (h1 ▸ List.cons_ne_nil _ _) ⟨⟨"sell", some 10, none⟩, by norm_num, by simp⟩, h1]
  norm_num [List.countP_cons]

/-- Claim C6: when construction succeeds with return series `r`, the lengths
of the return and cumulative series equal the date count, every element of
`cumulative_net_assets` is the prefix product of `1 + r`, and every element
of `cumulative_returns` is the corresponding net value minus one. -/
theorem claim_C6 (acct : Account) (r : List ℚ)
    (h : calculate_returns acct = Except.ok r) :
    r.length = acct.dates.length ∧
    (cumulative_returns acct).length = r.length ∧
    ∀ i, i < r.length →
      (cumulative_net_assets acct).getD i 0 = ((r.take (i + 1)).map (fun t => 1 + t)).prod ∧
      (cumulative_returns acct).getD i 0 = (cumulative_net_assets acct).getD i 0 - 1 := by
  unfold calculate_returns at h
  by_cases h0 : acct.total_assets.length = 0
  · rw [if_pos h0] at h
    exact absurd h (by simp)
  rw [if_neg h0] at h
  by_cases hd : acct.dates.length ≠ acct.total_assets.length
  · rw [if_pos hd] at h
    exact absurd h (by simp)
  rw [if_neg hd] at h
  have hr : r = strategy_returns acct := (Except.ok.inj h).symm
  have hlen : acct.dates.length = acct.total_assets.length := not_not.mp hd
  subst hr
  refine ⟨by rw [length_strategy_returns, hlen], ?_, ?_⟩
  · simp [cumulative_returns, cumulative_net_assets, cumprod, length_cumprodAux]
  · intro i hi
    have hi' : i < (( strategy_returns acct).map (fun t => 1 + t)).length := by
      simpa using hi
    have hcna : (cumulative_net_assets acct).getD i 0
        = ((( strategy_returns acct).take (i + 1)).map (fun t => 1 + t)).prod := by
      rw [cumulative_net_assets, cumprod, cumprodAux_getD _ 1 i hi', one_mul,
        List.map_take]
    refine ⟨hcna, ?_⟩
    have hlt : i < (cumulative_net_assets acct).length := by
      simpa [cumulative_net_assets, cumprod, length_cumprodAux] using hi
    rw [cumulative_returns, getD_map_rat _ _ i hlt]

/-- Claim C6, witness: a concrete two-day ledger. -/
theorem claim_C6_witness :
    ([0, 1/10] : List ℚ).length = ([0, 1] : List ℤ).length ∧
    (cumulative_returns ⟨[0, 1], [100, 110], []⟩).length = ([0, 1/10] : List ℚ).length ∧
    ∀ i, i < ([0, 1/10] : List ℚ).length →
      (cumulative_net_assets ⟨[0, 1], [100, 110], []⟩).getD i 0
        = ((([0, 1/10] : List ℚ).take (i + 1)).map (fun t => 1 + t)).prod ∧
      (cumulative_returns ⟨[0, 1], [100, 110], []⟩).getD i 0
        = (cumulative_net_assets ⟨[0, 1], [100, 110], []⟩).getD i 0 - 1 :=
  claim_C6 ⟨[0, 1], [100, 110], []⟩ [0, 1/10]
    (by norm_num [calculate_returns, strategy_returns, assetSeries, sanitizeAssets,
      pctChangeFill0, pctChangeAux, clamp, qmax, qmin])

/-- Claim C7 (code bug): with the compounding numeric error in effect, the
overriding second definition of `calculate_cumulative_returns` propagates the
exception, while the all-1.0 / all-0.0 fallback the spec describes is
implemented only by the first, shadowed definition. -/
theorem claim_C7_bug :
    calculate_cumulative_returns true ⟨[0], [100], []⟩ =
      Except.error "numeric error in cumprod" ∧
    calculate_cumulative_returns_shadowed true ⟨[0], [100], []⟩ = ([1], [0]) := by
  constructor
  · norm_num [calculate_cumulative_returns, numpyCumprod, Except.map]
  · norm_num [calculate_cumulative_returns_shadowed, numpyCumprod, strategy_returns,
      assetSeries, sanitizeAssets, pctChangeFill0, pctChangeAux, clamp, qmax, qmin,
      List.replicate]

lemma lastNonzero_cons (x : ℚ) (l : List ℚ) :
    lastNonzero (x :: l) =
      match lastNonzero l with
      | some v => some v
      | none => if x = 0 then none else some x := rfl

lemma getD_clipLowerOpt (l : List (Option ℚ)) :
    ∀ i, (clipLowerOpt l).getD i none = (l.getD i none).map (fun v => qmax v eps) := by
  induction l with
  | nil => intro i; cases i <;> rfl
  | cons x xs ih =>
    intro i
    cases i with
    | zero => rfl
    | succ n => simpa [clipLowerOpt] using ih n

lemma replaceZeroFfill_getD (assets : List ℚ) :
    ∀ (prev : Option ℚ) (i : ℕ), i < assets.length →
      (replaceZeroFfill prev assets).getD i none =
        if assets.getD i 0 = 0
        then (match lastNonzero (assets.take i) with
              | some v => some v
              | none => prev)
        else some (assets.getD i 0) := by
  induction assets with
  | nil => intro prev i h; simp at h
  | cons x xs ih =>
    intro prev i h
    cases i with
    | zero =>
      by_cases hx : x = 0 <;> simp [replaceZeroFfill, hx, lastNonzero]
    | succ n =>
      have hn : n < xs.length := by simpa using h
      by_cases hx : x = 0
      · rw [replaceZeroFfill, if_pos hx]
        simp only [List.getD_cons_succ, List.take_succ_cons]
        rw [ih prev n hn, hx, lastNonzero_cons]
        cases hl : lastNonzero (xs.take n) <;> simp
      · rw [replaceZeroFfill, if_neg hx]
        simp only [List.getD_cons_succ, List.take_succ_cons]
        rw [ih (some x) n hn, lastNonzero_cons]
        cases hl : lastNonzero (xs.take n) <;> simp [hx]

/-- Claim C3, counterexample: for the asset series `[100, -50, 121]` the code
does NOT forward-fill the negative value from `100` — only exact zeros are
forward-filled; the `-50` survives the fill and is then clipped up to the
epsilon `1e-6`, whereas the claim's substitution would put `100` there. -/
theorem claim_C3_counterexample :
    sanitizeAssets [100, -50, 121] ≠ (sanitizeSpecC3 none [100, -50, 121]).map some ∧
    sanitizeAssets [100, -50, 121] = [some 100, some eps, some 121] ∧
    sanitizeSpecC3 none [100, -50, 121] = [100, 100, 121] := by
  have h1 : sanitizeAssets [100, -50, 121] = [some 100, some eps, some 121] := by
    norm_num [sanitizeAssets, clipLowerOpt, replaceZeroFfill, qmax, eps]
  have h2 : sanitizeSpecC3 none [100, -50, 121] = [100, 100, 121] := by
    norm_num [sanitizeSpecC3]
  refine ⟨?_, h1, h2⟩
  rw [h1, h2]
  simp [eps]
  norm_num

/-- Claim C3 (amended): in the sanitisation applied when some asset value is
non-positive, each exact ZERO is replaced by the most recent preceding
nonzero value (staying missing when there is none), and every surviving
value — negative values included — is then floored at the epsilon `1e-6`;
negative values are NOT forward-filled. -/
theorem claim_C3_amended (assets : List ℚ) (hneg : ∃ a ∈ assets, a ≤ 0) :
    ∀ i, i < assets.length →
      (sanitizeAssets assets).getD i none =
        if assets.getD i 0 = 0
        then (lastNonzero (assets.take i)).map (fun v => qmax v eps)
        else some (qmax (assets.getD i 0) eps) := by
  intro i h
  have := hneg
  rw [sanitizeAssets, getD_clipLowerOpt, replaceZeroFfill_getD assets none i h]
  by_cases hz : assets.getD i 0 = 0
  · rw [if_pos hz, if_pos hz]
    cases hl : lastNonzero (assets.take i) <;> simp
  · rw [if_neg hz, if_neg hz]
    rfl

/-- Claim C3, witness: in `[100, -50, 121]` the negative entry at index 1 is
clipped to the epsilon (not filled from `100`), exactly as the amended claim
states. -/
theorem claim_C3_witness :
    (∃ a ∈ ([100, -50, 121] : List ℚ), a ≤ 0) ∧
    (sanitizeAssets [100, -50, 121]).getD 1 none = some eps := by
  refine ⟨⟨-50, by norm_num, by norm_num⟩, ?_⟩
  rw [claim_C3_amended [100, -50, 121] ⟨-50, by norm_num, by norm_num⟩ 1 (by norm_num)]
  norm_num [qmax, eps]

lemma ddAux_eq_foldl (l : List ℚ) :
    ∀ m c, ddAux m c l = (ddCand m l).foldl qmin c := by
  induction l with
  | nil => intro m c; rfl
  | cons x xs ih =>
    intro m c
    rw [ddAux, ddCand, List.foldl_cons, ih]

lemma ddCand_eq_range (l : List ℚ) :
    ∀ m, ddCand m l =
      (List.range l.length).map
        (fun i => l.getD i 0 / ((l.take (i + 1)).foldl qmax m) - 1) := by
  induction l with
  | nil => intro m; rfl
  | cons x xs ih =>
    intro m
    have htail : (List.range xs.length).map
        ((fun i => (x :: xs).getD i 0 / (((x :: xs).take (i + 1)).foldl qmax m) - 1)
          ∘ Nat.succ)
        = ddCand (qmax m x) xs := by
      rw [ih (qmax m x)]
      refine List.map_congr_left ?_
      intro i _
      simp only [Function.comp_apply, List.getD_cons_succ, List.take_succ_cons,
        List.foldl_cons]
    rw [ddCand, List.length_cons, List.range_succ_eq_map, List.map_cons, List.map_map,
      htail]
    congr 1

lemma specCandidates_cons (x : ℚ) (xs : List ℚ) :
    specCandidates (x :: xs) = (x / x - 1) :: ddCand x xs := by
  have htail : (List.range xs.length).map
      ((fun i => (x :: xs).getD i 0 / (((x :: xs).take (i + 1)).foldl qmax
        ((x :: xs).headD 0)) - 1) ∘ Nat.succ)
      = ddCand x xs := by
    rw [ddCand_eq_range xs x]
    refine List.map_congr_left ?_
    intro i _
    simp only [Function.comp_apply, List.getD_cons_succ, List.take_succ_cons,
      List.foldl_cons, List.headD_cons, qmax_self]
  rw [specCandidates, List.length_cons, List.range_succ_eq_map, List.map_cons,
    List.map_map, htail]
  congr 1
  simp [qmax_self]

lemma specMaxDrawdown_of_cons (v : List ℚ) (c : ℚ) (cs : List ℚ)
    (h : specCandidates v = c :: cs) : specMaxDrawdown v = cs.foldl qmin c := by
  unfold specMaxDrawdown
  rw [h]

lemma get_max_drawdown_eq_spec (acct : Account) :
    get_max_drawdown acct = specMaxDrawdown (cumulative_net_assets acct) := by
  cases hv : cumulative_net_assets acct with
  | nil =>
    unfold get_max_drawdown specMaxDrawdown specCandidates
    rw [hv]
    rfl
  | cons x xs =>
    have h1 : get_max_drawdown acct = ddAux x (x / x - 1) xs := by
      unfold get_max_drawdown
      rw [hv]
    have h2 : specMaxDrawdown (x :: xs)
        = (ddCand x xs).foldl qmin (x / x - 1) :=
      specMaxDrawdown_of_cons _ _ _ (specCandidates_cons x xs)
    rw [h1, h2, ddAux_eq_foldl]

/-- Claim C2: for every ledger on which the annualised return computes to a
(real) value `a`, the Calmar ratio is `|a| / |max_drawdown|` where
`max_drawdown` is the spec's maximum peak-to-trough decline of
`cumulative_net_value` — `min over i of (value[i] / running_max(value[0..i]) - 1)`
— and it is `0` when that max drawdown is `0`.  (`get_max_drawdown` itself is
absent from the source and modelled from the spec.) -/
theorem claim_C2 (ops : RealOps) (acct : Account) (a : ℚ)
    (h : get_annualized_return ops acct = Except.ok a) :
    get_calmar_ratio ops acct =
      Except.ok
        (if specMaxDrawdown (cumulative_net_assets acct) = 0 then 0
         else |a| / |specMaxDrawdown (cumulative_net_assets acct)|) := by
  rw [ get_calmar_ratio, h]
  simp only [get_max_drawdown_eq_spec]
  by_cases hm : specMaxDrawdown (cumulative_net_assets acct) = 0
  · simp [hm]
  · simp [hm, abs_eq_zero]

/-- Claim C2, witness: for the ledger with assets `[100, 90]` and the
constant-2 power oracle, the drawdown is `-0.1` and the Calmar ratio is
`|100| / |-0.1| = 1000`. -/
theorem claim_C2_witness :
    get_calmar_ratio ⟨fun _ _ => 2, fun _ => 0⟩ ⟨[0, 1], [100, 90], []⟩ =
      Except.ok 1000 := by
  have h : get_annualized_return ⟨fun _ _ => 2, fun _ => 0⟩ ⟨[0, 1], [100, 90], []⟩
      = Except.ok 100 := by
    norm_num [get_annualized_return, get_total_return]
  have hdd : specMaxDrawdown (cumulative_net_assets ⟨[0, 1], [100, 90], []⟩)
      = -(1/10) := by
    norm_num [specMaxDrawdown, specCandidates, cumulative_net_assets, strategy_returns,
      assetSeries, sanitizeAssets, pctChangeFill0, pctChangeAux, cumprod, cumprodAux,
      clamp, qmax, qmin, List.range_succ]
  refine (claim_C2 ⟨fun _ _ => 2, fun _ => 0⟩ ⟨[0, 1], [100, 90], []⟩ 100 h).trans ?_
  rw [hdd]
  rw [abs_of_nonneg (by norm_num : (0:ℚ) ≤ 100), abs_of_neg (by norm_num : -(1/10 : ℚ) < 0)]
  norm_num

lemma get_total_return_ok (acct : Account) (h2 : ¬ acct.total_assets.length < 2)
    (h0 : acct.total_assets.getD 0 0 ≠ 0) :
    get_total_return acct =
      Except.ok
        ((acct.total_assets.getLast?.getD 0 / acct.total_assets.getD 0 0 - 1) * 100) := by
  unfold get_total_return
  rw [if_neg h2]
  dsimp only
  rw [if_neg h0]

lemma get_annualized_ok (ops : RealOps) (acct : Account)
    (hlen : acct.dates.length = acct.total_assets.length)
    (hdiv : acct.total_assets.length < 2 ∨
      (acct.total_assets.getD 0 0 ≠ 0 ∧
        (0 ≤ acct.total_assets.getLast?.getD 0 / acct.total_assets.getD 0 0 ∨
          252 % acct.total_assets.length = 0))) :
    ∃ v, get_annualized_return ops acct = Except.ok v := by
  by_cases h2 : acct.dates.length < 2
  · exact ⟨0, by unfold get_annualized_return; rw [if_pos h2]⟩
  · have hlen2 : ¬ acct.total_assets.length < 2 := by
      rw [hlen] at h2
      exact h2
    rcases hdiv with h | ⟨h0, hc⟩
    · exact absurd h hlen2
    · have ht := get_total_return_ok acct hlen2 h0
      unfold get_annualized_return
      rw [if_neg h2, ht]
      dsimp only
      rw [if_neg (show ¬ acct.dates.length ≤ 1 by omega)]
      have hbase : 1 + (acct.total_assets.getLast?.getD 0 / acct.total_assets.getD 0 0 - 1)
          * 100 / 100 = acct.total_assets.getLast?.getD 0 / acct.total_assets.getD 0 0 := by
        field_simp
      rw [hbase]
      rcases hc with hge | hdvd
      · rw [if_neg (fun hcontra => absurd hge (not_le.mpr hcontra.1))]
        exact ⟨_, rfl⟩
      · rw [if_neg (fun hcontra => hcontra.2 (hlen ▸ hdvd))]
        exact ⟨_, rfl⟩

lemma get_sharpe_ok (ops : RealOps) (acct : Account)
    (hex : ∃ v, get_annualized_return ops acct = Except.ok v) :
    ∃ v, get_sharpe_ratio ops acct = Except.ok v := by
  by_cases h2 : ( strategy_returns acct).length < 2
  · exact ⟨0, by unfold get_sharpe_ratio; rw [if_pos h2]⟩
  · obtain ⟨a, ha⟩ := hex
    unfold get_sharpe_ratio
    rw [if_neg h2, ha]
    dsimp only
    by_cases hv : seriesStd ops ( strategy_returns acct) * ops.sqrt 252 = 0
    · exact ⟨0, by rw [if_pos hv]⟩
    · exact ⟨_, by rw [if_neg hv]⟩

lemma get_calmar_ok (ops : RealOps) (acct : Account)
    (hex : ∃ v, get_annualized_return ops acct = Except.ok v) :
    ∃ v, get_calmar_ratio ops acct = Except.ok v := by
  obtain ⟨a, ha⟩ := hex
  unfold get_calmar_ratio
  rw [ha]
  dsimp only
  by_cases hm : |get_max_drawdown acct| = 0
  · exact ⟨0, by rw [if_pos hm]⟩
  · exact ⟨_, by rw [if_neg hm]⟩

/-- Claim C1 (amended): for every non-empty, length-consistent ledger that
additionally has a nonzero first asset value (N ≥ 2) and a non-negative
final/initial asset ratio (or a trading-day count dividing 252, keeping the
annualisation exponent integral), `get_performance_summary` raises nothing
and returns the ordered mapping of the ten metric labels to rounded values.
Without the extra conditions it raises: `ZeroDivisionError` in
`get_total_return` when `total_assets[0] == 0`, and a `TypeError` on
rounding the complex annualised return when the compounding base is
negative with a fractional exponent. -/
theorem claim_C1_amended (ops : RealOps) (acct : Account)
    (_h0 : acct.total_assets ≠ [])
    (hlen : acct.dates.length = acct.total_assets.length)
    (hdiv : acct.total_assets.length < 2 ∨
      (acct.total_assets.getD 0 0 ≠ 0 ∧
        (0 ≤ acct.total_assets.getLast?.getD 0 / acct.total_assets.getD 0 0 ∨
          252 % acct.total_assets.length = 0))) :
    get_performance_summary ops acct =
      Except.ok
        [("总收益率 (%)", roundTo 2 (okD (get_total_return acct))),
         ("年化收益率 (%)", roundTo 2 (okD (get_annualized_return ops acct))),
         ("夏普比率", roundTo 3 (okD ( get_sharpe_ratio ops acct))),
         ("年化波动率 (%)", roundTo 2 (get_volatility ops acct)),
         ("Calmar比率", roundTo 3 (okD ( get_calmar_ratio ops acct))),
         ("总交易次数", (get_trade_count acct : ℚ)),
         ("买入次数", ((get_buy_sell_count acct).1 : ℚ)),
         ("卖出次数", ((get_buy_sell_count acct).2 : ℚ)),
         ("胜率 (%)", roundTo 2 (get_win_rate acct)),
         ("平均交易收益率 (%)", roundTo 2 (get_avg_trade_return acct))] := by
  have htot : ∃ v, get_total_return acct = Except.ok v := by
    by_cases h2 : acct.total_assets.length < 2
    · exact ⟨0, by unfold get_total_return; rw [if_pos h2]⟩
    · rcases hdiv with h | ⟨hh, _⟩
      · exact absurd h h2
      · exact ⟨_, get_total_return_ok acct h2 hh⟩
  obtain ⟨t, ht⟩ := htot
  obtain ⟨a, ha⟩ := get_annualized_ok ops acct hlen hdiv
  obtain ⟨sv, hs⟩ := get_sharpe_ok ops acct ⟨a, ha⟩
  obtain ⟨c, hc⟩ := get_calmar_ok ops acct ⟨a, ha⟩
  unfold get_performance_summary
  rw [ht, ha, hs, hc]
  simp only [okD]

/-- Claim C1, counterexample: the non-empty, length-consistent ledger with
assets `[0, 121]` (an anomalous non-positive first value) makes
`get_performance_summary` raise `ZeroDivisionError` inside
`get_total_return` instead of returning the mapping. -/
theorem claim_C1_counterexample :
    (⟨[0, 1], [0, 121], []⟩ : Account).total_assets ≠ [] ∧
    (⟨[0, 1], [0, 121], []⟩ : Account).dates.length
      = (⟨[0, 1], [0, 121], []⟩ : Account).total_assets.length ∧
    get_performance_summary ⟨fun _ _ => 2, fun _ => 0⟩ ⟨[0, 1], [0, 121], []⟩
      = Except.error "division by zero" := by
  refine ⟨by simp, rfl, ?_⟩
  norm_num [get_performance_summary, get_total_return, validate_data]

/-- Claim C1, witness: a concrete two-day ledger with one profitable sell
trade, under the oracle with `** ↦ 2` and `sqrt ↦ 3`, yields the full
ten-entry mapping. -/
theorem claim_C1_witness :
    get_performance_summary ⟨fun _ _ => 2, fun _ => 3⟩
        ⟨[0, 1], [100, 110], [⟨"sell", some 10, some (1/20)⟩]⟩ =
      Except.ok
        [("总收益率 (%)", 10),
         ("年化收益率 (%)", 100),
         ("夏普比率", 109/1000),
         ("年化波动率 (%)", 900),
         ("Calmar比率", 0),
         ("总交易次数", 1),
         ("买入次数", 0),
         ("卖出次数", 1),
         ("胜率 (%)", 100),
         ("平均交易收益率 (%)", 5)] := by
  have hr : strategy_returns ⟨[0, 1], [100, 110], [⟨"sell", some 10, some (1/20)⟩]⟩
      = [0, 1/10] := by
    norm_num [strategy_returns, assetSeries, sanitizeAssets, pctChangeFill0,
      pctChangeAux, clamp, qmax, qmin]
  have ht : get_total_return ⟨[0, 1], [100, 110], [⟨"sell", some 10, some (1/20)⟩]⟩
      = Except.ok 10 := by
    norm_num [get_total_return, List.getLast?]
  have ha : get_annualized_return ⟨fun _ _ => 2, fun _ => 3⟩
      ⟨[0, 1], [100, 110], [⟨"sell", some 10, some (1/20)⟩]⟩ = Except.ok 100 := by
    norm_num [get_annualized_return, get_total_return, List.getLast?]
  have hs : get_sharpe_ratio ⟨fun _ _ => 2, fun _ => 3⟩
      ⟨[0, 1], [100, 110], [⟨"sell", some 10, some (1/20)⟩]⟩ = Except.ok (49/450) := by
    unfold get_sharpe_ratio
    rw [hr, ha]
    norm_num [seriesStd, sampleVar, risk_free_rate]
  have hdd : get_max_drawdown ⟨[0, 1], [100, 110], [⟨"sell", some 10, some (1/20)⟩]⟩
      = 0 := by
    unfold get_max_drawdown cumulative_net_assets
    rw [hr]
    norm_num [cumprod, cumprodAux, ddAux, qmax, qmin]
  have hc : get_calmar_ratio ⟨fun _ _ => 2, fun _ => 3⟩
      ⟨[0, 1], [100, 110], [⟨"sell", some 10, some (1/20)⟩]⟩ = Except.ok 0 := by
    unfold get_calmar_ratio
    rw [ha]
    norm_num [hdd]
  refine (claim_C1_amended ⟨fun _ _ => 2, fun _ => 3⟩
      ⟨[0, 1], [100, 110], [⟨"sell", some 10, some (1/20)⟩]⟩ (by simp) rfl
      (Or.inr ⟨by norm_num, Or.inl (by norm_num [List.getLast?])⟩)).trans ?_
  rw [ht, ha, hs, hc]
  simp only [okD]
  have hvol : get_volatility ⟨fun _ _ => 2, fun _ => 3⟩
      ⟨[0, 1], [100, 110], [⟨"sell", some 10, some (1/20)⟩]⟩ = 900 := by
    unfold get_volatility
    rw [hr]
    norm_num [seriesStd, sampleVar]
  have hwin : get_win_rate ⟨[0, 1], [100, 110], [⟨"sell", some 10, some (1/20)⟩]⟩
      = 100 := by
    norm_num [get_win_rate, sellTrades, List.countP_cons]
  have havg : get_avg_trade_return ⟨[0, 1], [100, 110], [⟨"sell", some 10, some (1/20)⟩]⟩
      = 5 := by
    norm_num [get_avg_trade_return, List.filterMap_cons]
  rw [hvol, hwin, havg]
  have hround : roundTo 3 ((49:ℚ)/450) = 109/1000 := by
    have hfloor : Int.floor ((49:ℚ)/450 * 10 ^ 3) = 108 := by
      rw [Int.floor_eq_iff]
      norm_num
    norm_num [roundTo, roundHalfEven, hfloor]
  rw [hround]
  norm_num [okD, roundTo, roundHalfEven, get_trade_count, get_buy_sell_count, sellTrades]
  decide
